import Mathlib

/-!
Verification development for the Contrib repository.

The repository contains two model-definition files:
* `src/e3d_lstm/src/layers/rnn_cellp.py` — the `EideticLSTMCell` class
  (constructor validation, `_norm`, `_attn`, `_conv`, `__call__`);
* `src/ECO/paddle2.0/model/ECO.py` — `ConvBNLayer`, the Inception-style
  blocks and the two-stream `GoogLeNet` model.

Tensors are shallowly embedded as a shape (list of dimension sizes)
together with a flat row-major data list of rationals.  The external
paddle/fluid framework primitives (convolutions, layer normalization,
pooling, elementwise nonlinearities, reshapes, dropout, the 3D ResNet
module imported from a file that is not part of the repository, ...) are
passed in as records of opaque-to-the-development function parameters
(`CellOps`, `EcoOps`); everything the repository itself computes —
control flow, error behaviour, the `_attn` pipeline (reshape, batched
matmul, softmax along the key axis), the branch wiring of the Inception
blocks, the `out_3d` buffer update — is embedded concretely from the
source.
-/

namespace Contrib

/-- A tensor: a shape and a flat row-major data list of rationals. -/
structure Tensor where
  shape : List Nat
  data : List ℚ
deriving DecidableEq, Repr, Inhabited

/-- Number of elements announced by the shape. -/
def Tensor.numel (t : Tensor) : Nat := t.shape.prod

/-- A tensor is well formed when its data list matches its shape. -/
def Tensor.WF (t : Tensor) : Prop := t.data.length = t.shape.prod

/-- Size of the i-th dimension (0 when out of range). -/
def Tensor.dim (t : Tensor) (i : Nat) : Nat := t.shape.getD i 0

/-- Entry of a rank-3 tensor at index (i, j, k), row-major. -/
def Tensor.get3 (t : Tensor) (i j k : Nat) : ℚ :=
  t.data.getD ((i * t.dim 1 + j) * t.dim 2 + k) 0

/-- Transcribes `fluid.layers.reshape(x, [batch, -1, num_channels])`: the middle
dimension is inferred from the element count. -/
def reshapeBC (t : Tensor) (batch num_channels : Nat) : Tensor :=
  ⟨[batch, t.numel / (batch * num_channels), num_channels], t.data⟩

/-- Transcribes `fluid.layers.matmul(a, b, False, True)` on rank-3 tensors:
`a : [B, M, C]`, `b : [B, N, C]`, result `[B, M, N]` with
`y[i,j,k] = sum_c a[i,j,c] * b[i,k,c]`. -/
def matmulNT (a b : Tensor) : Tensor :=
  ⟨[a.dim 0, a.dim 1, b.dim 1],
   (List.range (a.dim 0)).flatMap fun i =>
     (List.range (a.dim 1)).flatMap fun j =>
       (List.range (b.dim 1)).map fun k =>
         ((List.range (a.dim 2)).map fun c => a.get3 i j c * b.get3 i k c).sum⟩

/-- Transcribes `fluid.layers.matmul(a, b, False, False)` on rank-3 tensors:
`a : [B, M, K]`, `b : [B, K, N]`, result `[B, M, N]` with
`y[i,j,k] = sum_c a[i,j,c] * b[i,c,k]`. -/
def matmulNN (a b : Tensor) : Tensor :=
  ⟨[a.dim 0, a.dim 1, b.dim 2],
   (List.range (a.dim 0)).flatMap fun i =>
     (List.range (a.dim 1)).flatMap fun j =>
       (List.range (b.dim 2)).map fun k =>
         ((List.range (a.dim 2)).map fun c => a.get3 i j c * b.get3 i c k).sum⟩

/-- Transcribes `fluid.layers.softmax(x, axis=2)` on a rank-3 tensor, with the scalar
exponential supplied as the parameter `expf` (the exponential itself lives
in the external framework). -/
def softmaxAxis2 (expf : ℚ → ℚ) (t : Tensor) : Tensor :=
  ⟨[t.dim 0, t.dim 1, t.dim 2],
   (List.range (t.dim 0)).flatMap fun i =>
     (List.range (t.dim 1)).flatMap fun j =>
       let s := ((List.range (t.dim 2)).map fun k => expf (t.get3 i j k)).sum
       (List.range (t.dim 2)).map fun k => expf (t.get3 i j k) / s⟩

/-- Errors an `EideticLSTMCell` operation can raise: `valueError` mirrors
Python `ValueError`, `noneType` mirrors the `TypeError` of applying a
framework layer to the `None` returned by `_conv` for an unhandled
`conv_ndims`, and `unboundLocal` mirrors Python's `UnboundLocalError`. -/
inductive CellErr where
  | valueError
  | noneType
  | unboundLocal
deriving DecidableEq, Repr

/-- The `kernel_shape` argument of the fluid convolutions: either a plain
integer (as in `self._conv(memory, self._output_channels, 1)`) or a shape
tuple. -/
inductive KernelArg where
  | int (n : ℤ)
  | shape (s : List ℤ)
deriving DecidableEq, Repr

/-- The configuration an `EideticLSTMCell` stores at construction. -/
structure CellConfig where
  conv_ndims : ℤ
  input_shape : List ℤ
  output_channels : ℤ
  kernel_shape : KernelArg
  layer_norm : Bool
  norm_gain : ℚ
  norm_shift : ℚ
  forget_bias : ℚ
  name : String
deriving DecidableEq, Repr

/-- The fluid framework primitives used by `EideticLSTMCell`, passed as
parameters: the repository does not implement them.  `conv2d` and `conv3d`
stand for the same-padded `fluid.layers.conv2d` / `conv3d` calls, with the
requested number of output channels and kernel argument; `split4` and
`split7` stand for `fluid.layers.split(x, 4, -1)` / `split(x, 7, -1)`;
`expf` is the scalar exponential used by `fluid.layers.softmax`. -/
structure CellOps where
  conv2d : Tensor → ℤ → KernelArg → Tensor
  conv3d : Tensor → ℤ → KernelArg → Tensor
  layer_norm : Tensor → Tensor
  sigmoid : Tensor → Tensor
  tanh : Tensor → Tensor
  add : Tensor → Tensor → Tensor
  mul : Tensor → Tensor → Tensor
  addScalar : Tensor → ℚ → Tensor
  split4 : Tensor → Tensor × Tensor × Tensor × Tensor
  split7 : Tensor → Tensor × Tensor × Tensor × Tensor × Tensor × Tensor × Tensor
  concatLast : Tensor → Tensor → Tensor
  expf : ℚ → ℚ

/-- Transcribes `EideticLSTMCell.__init__`: raises `ValueError` when `conv_ndims`
differs from `len(input_shape) - 1`, otherwise stores the configuration. -/
def cellInit (conv_ndims : ℤ) (input_shape : List ℤ) (output_channels : ℤ)
    (kernel_shape : KernelArg) (layer_norm : Bool)
    (norm_gain norm_shift forget_bias : ℚ) (name : String) :
    Except CellErr CellConfig :=
  if conv_ndims ≠ (input_shape.length : ℤ) - 1 then
    .error .valueError
  else
    .ok ⟨conv_ndims, input_shape, output_channels, kernel_shape, layer_norm,
         norm_gain, norm_shift, forget_bias, name⟩

/-- Transcribes `EideticLSTMCell._conv`: dispatches on `conv_ndims`; for any value
other than 2 or 3 the Python function falls through and returns `None`,
modelled as `none`. -/
def cellConv (ops : CellOps) (c : CellConfig) (inputs : Tensor)
    (output_channels : ℤ) (kernel_shape : KernelArg) : Option Tensor :=
  if c.conv_ndims = 2 then some (ops.conv2d inputs output_channels kernel_shape)
  else if c.conv_ndims = 3 then some (ops.conv3d inputs output_channels kernel_shape)
  else none

/-- Applying a framework layer to `_conv`'s result: `None` raises. -/
def requireT : Option Tensor → Except CellErr Tensor
  | some t => .ok t
  | none => .error .noneType

/-- Transcribes `EideticLSTMCell._attn`: shape checks followed by the flatten /
batched-matmul / softmax / matmul / reshape pipeline of the source. -/
def attn (expf : ℚ → ℚ) (in_query in_keys in_values : Tensor) :
    Except CellErr Tensor :=
  let q_shape := in_query.shape
  let go : Nat → Nat → Nat → Nat → Except CellErr Tensor :=
    fun batch width height num_channels =>
      let k_shape := in_keys.shape
      if k_shape.length ≠ 5 then .error .valueError
      else
        let v_shape := in_values.shape
        if v_shape.length ≠ 5 then .error .valueError
        else if width ≠ k_shape.getD 2 0 ∨ height ≠ k_shape.getD 3 0 ∨
            num_channels ≠ k_shape.getD 4 0 then .error .valueError
        else if width ≠ v_shape.getD 2 0 ∨ height ≠ v_shape.getD 3 0 ∨
            num_channels ≠ v_shape.getD 4 0 then .error .valueError
        else if k_shape.getD 2 0 ≠ v_shape.getD 2 0 ∨
            k_shape.getD 3 0 ≠ v_shape.getD 3 0 ∨
            k_shape.getD 4 0 ≠ v_shape.getD 4 0 then .error .valueError
        else
          let query := reshapeBC in_query batch num_channels
          let keys := reshapeBC in_keys batch num_channels
          let values := reshapeBC in_values batch num_channels
          let a := matmulNT query keys
          let a := softmaxAxis2 expf a
          let a := matmulNN a values
          if q_shape.length = 4 then
            .ok ⟨[batch, width, height, num_channels], a.data⟩
          else
            .ok ⟨[batch, in_query.numel / (batch * width * height * num_channels),
                  width, height, num_channels], a.data⟩
  if q_shape.length = 4 then
    go (q_shape.getD 0 0) (q_shape.getD 1 0) (q_shape.getD 2 0) (q_shape.getD 3 0)
  else if q_shape.length = 5 then
    go (q_shape.getD 0 0) (q_shape.getD 2 0) (q_shape.getD 3 0) (q_shape.getD 4 0)
  else .error .valueError

/-- Transcribes `EideticLSTMCell.__call__`, transcribed statement by statement.  The
`if self._layer_norm:` branches normalize and, for the input and
global-memory stacks, also perform the `fluid.layers.split` that binds the
gate variables; outside those branches the split results stay unbound and
their first use raises, modelled by `CellErr.unboundLocal`. -/
def cellCall (ops : CellOps) (c : CellConfig)
    (inputs hidden cell global_memory eidetic_cell : Tensor) :
    Except CellErr (Tensor × Tensor × Tensor) := do
  let new_hidden := cellConv ops c hidden (4 * c.output_channels) c.kernel_shape
  let new_hidden ←
    if c.layer_norm then do
      let t ← requireT new_hidden
      pure (some (ops.layer_norm t))
    else pure new_hidden
  let nh ← requireT new_hidden
  let (i_h, g_h, r_h, o_h) := ops.split4 nh
  let new_inputs := cellConv ops c inputs (7 * c.output_channels) c.kernel_shape
  let xgates ←
    if c.layer_norm then do
      let t ← requireT new_inputs
      pure (ops.split7 (ops.layer_norm t))
    else throw CellErr.unboundLocal
  let (i_x, g_x, r_x, o_x, temp_i_x, temp_g_x, temp_f_x) := xgates
  let i_t := ops.sigmoid (ops.add i_x i_h)
  let r_t := ops.sigmoid (ops.add r_x r_h)
  let g_t := ops.tanh (ops.add g_x g_h)
  let a ← attn ops.expf r_t eidetic_cell eidetic_cell
  let new_cell := ops.add cell a
  let new_cell := ops.add (ops.layer_norm new_cell) (ops.mul i_t g_t)
  let new_global_memory :=
    cellConv ops c global_memory (4 * c.output_channels) c.kernel_shape
  let mgates ←
    if c.layer_norm then do
      let t ← requireT new_global_memory
      pure (ops.split4 (ops.layer_norm t))
    else throw CellErr.unboundLocal
  let (i_m, f_m, g_m, m_m) := mgates
  let temp_i_t := ops.sigmoid (ops.add temp_i_x i_m)
  let temp_f_t := ops.sigmoid (ops.addScalar (ops.add temp_f_x f_m) c.forget_bias)
  let temp_g_t := ops.tanh (ops.add temp_g_x g_m)
  let new_global_memory :=
    ops.add (ops.mul temp_f_t (ops.tanh m_m)) (ops.mul temp_i_t temp_g_t)
  let o_c ← requireT (cellConv ops c new_cell c.output_channels c.kernel_shape)
  let o_m ← requireT (cellConv ops c new_global_memory c.output_channels c.kernel_shape)
  let output_gate := ops.tanh (ops.add (ops.add (ops.add o_x o_h) o_c) o_m)
  let memory := ops.concatLast new_cell new_global_memory
  let memory ← requireT (cellConv ops c memory c.output_channels (.int 1))
  let output := ops.mul (ops.tanh memory) (ops.sigmoid output_gate)
  return (output, new_cell, new_global_memory)

/-- The same-padded convolution of the dimensionality selected by the
cell's `conv_ndims` (meaningful for `conv_ndims` two or three). -/
def specGateConv (ops : CellOps) (c : CellConfig) (x : Tensor) (oc : ℤ) : Tensor :=
  if c.conv_ndims = 2 then ops.conv2d x oc c.kernel_shape
  else ops.conv3d x oc c.kernel_shape

/-- The new cell state as the specification describes it: layer
normalization of (the incoming cell state plus the 3D self-attention whose
query is the recall gate and whose keys and values are the `eidetic_cell`
memory bank) plus `i_t * g_t`, the gate pre-activations coming from
same-padded convolutions of the hidden state and the input followed by
layer normalization. -/
def specNewCell (ops : CellOps) (c : CellConfig)
    (inputs hidden cell eidetic_cell : Tensor) : Except CellErr Tensor :=
  let hg := ops.split4 (ops.layer_norm (specGateConv ops c hidden (4 * c.output_channels)))
  let xg := ops.split7 (ops.layer_norm (specGateConv ops c inputs (7 * c.output_channels)))
  let i_t := ops.sigmoid (ops.add xg.1 hg.1)
  let g_t := ops.tanh (ops.add xg.2.1 hg.2.1)
  let r_t := ops.sigmoid (ops.add xg.2.2.1 hg.2.2.1)
  (attn ops.expf r_t eidetic_cell eidetic_cell).map fun a =>
    ops.add (ops.layer_norm (ops.add cell a)) (ops.mul i_t g_t)

/-- Batch size read off the query's shape, as `_attn` does. -/
def qBatch (q : Tensor) : Nat := q.shape.getD 0 0

/-- Channel count read off the query's shape (its last dimension), as
`_attn` does for both the rank-4 and the rank-5 case. -/
def qChannels (q : Tensor) : Nat := q.shape.getD (q.shape.length - 1) 0

/-- The attention pipeline as the specification describes it: flatten each
input to (batch, positions, channels), softmax of the query-keys product
along the key axis, multiply by the values. -/
def attnSpec (expf : ℚ → ℚ) (q k v : Tensor) (batch nc : Nat) : Tensor :=
  matmulNN (softmaxAxis2 expf (matmulNT (reshapeBC q batch nc) (reshapeBC k batch nc)))
    (reshapeBC v batch nc)

/-- The constructor arguments of `ConvBNLayer` (a `Conv2D` followed by
`BatchNorm2D`), in source order. -/
structure ConvParams where
  num_channels : Nat
  num_filters : Nat
  filter_size : Nat
  stride : Nat
  groups : Nat
  padding : Nat
deriving DecidableEq, Repr

/-- A `ConvBNLayer` built with the default `groups=1`, as every call site
in the source does. -/
def mkCBL (num_channels num_filters filter_size stride padding : Nat) : ConvParams :=
  ⟨num_channels, num_filters, filter_size, stride, 1, padding⟩

/-- Arguments of the `MaxPool2D` / `AvgPool2D` layers. -/
structure PoolParams where
  kernel_size : Nat
  stride : Nat
  padding : Nat
deriving DecidableEq, Repr

/-- Transcribes `paddle.nn.functional.relu`: elementwise `max 0`. -/
def Tensor.relu (t : Tensor) : Tensor :=
  ⟨t.shape, t.data.map fun q => max 0 q⟩

/-- The paddle framework primitives used by `ECO.py`, passed as
parameters.  Each reshape field stands for the `paddle.reshape` call with
the shape argument built at the corresponding source line; `res3d` stands
for the `Res3D.ResNet3D` module, which is imported from a file that is not
part of the repository. -/
structure EcoOps where
  conv2d : ConvParams → Tensor → Tensor
  batchNorm2d : Nat → Tensor → Tensor
  maxPool2d : PoolParams → Tensor → Tensor
  avgPool2d : PoolParams → Tensor → Tensor
  adaptiveAvgPool1 : Tensor → Tensor
  concat1 : List Tensor → Tensor
  concat0 : Tensor → Tensor → Tensor
  reshapeFlat4 : Tensor → Tensor
  reshapeSeg5 : Nat → Tensor → Tensor
  reshapeSwap : Tensor → Tensor
  reshape2 : Tensor → Tensor
  reshapeSeg3 : Nat → Tensor → Tensor
  mean1 : Tensor → Tensor
  dropout : ℚ → Tensor → Tensor
  res3d : Tensor → Tensor
  linearOut : Nat → Tensor → Tensor
  softmaxF : Tensor → Tensor
  accuracy : Tensor → Tensor → Tensor

/-- Transcribes `ConvBNLayer.forward`: conv, relu, batch norm, relu. -/
def convBNForward (ops : EcoOps) (p : ConvParams) (x : Tensor) : Tensor :=
  Tensor.relu (ops.batchNorm2d p.num_filters (Tensor.relu (ops.conv2d p x)))

/-- The constructor arguments of `Inception` (and of `Inception5a` and
`Inception5b`, which take the same list). -/
structure InceptionParams where
  num_channels : Nat
  ch1x1 : Nat
  ch3x3reduced : Nat
  ch3x3 : Nat
  doublech3x3reduced : Nat
  doublech3x3_1 : Nat
  doublech3x3_2 : Nat
  pool_proj : Nat
deriving DecidableEq, Repr

/-- Transcribes `Inception.branch1`: a 1x1 `ConvBNLayer`. -/
def inceptionBranch1 (ops : EcoOps) (p : InceptionParams) (x : Tensor) : Tensor :=
  convBNForward ops (mkCBL p.num_channels p.ch1x1 1 1 0) x

/-- Transcribes `Inception.branch2`: 1x1 then 3x3 `ConvBNLayer`. -/
def inceptionBranch2 (ops : EcoOps) (p : InceptionParams) (x : Tensor) : Tensor :=
  convBNForward ops (mkCBL p.ch3x3reduced p.ch3x3 3 1 1)
    (convBNForward ops (mkCBL p.num_channels p.ch3x3reduced 1 1 0) x)

/-- Transcribes `Inception.branch3`: 1x1 then double 3x3 `ConvBNLayer`. -/
def inceptionBranch3 (ops : EcoOps) (p : InceptionParams) (x : Tensor) : Tensor :=
  convBNForward ops (mkCBL p.doublech3x3_1 p.doublech3x3_2 3 1 1)
    (convBNForward ops (mkCBL p.doublech3x3reduced p.doublech3x3_1 3 1 1)
      (convBNForward ops (mkCBL p.num_channels p.doublech3x3reduced 1 1 0) x))

/-- Transcribes `Inception.branch4`: 3x3 average pool then 1x1 `ConvBNLayer`. -/
def inceptionBranch4 (ops : EcoOps) (p : InceptionParams) (x : Tensor) : Tensor :=
  convBNForward ops (mkCBL p.num_channels p.pool_proj 1 1 0)
    (ops.avgPool2d ⟨3, 1, 1⟩ x)

/-- Transcribes `Inception.forward`. -/
def inceptionForward (ops : EcoOps) (p : InceptionParams) (x : Tensor) : Tensor :=
  ops.concat1 [inceptionBranch1 ops p x, inceptionBranch2 ops p x,
    inceptionBranch3 ops p x, inceptionBranch4 ops p x]

/-- The constructor arguments of `Inception3c`. -/
structure Inception3cParams where
  num_channels : Nat
  ch3x3reduced : Nat
  ch3x3 : Nat
  doublech3x3reduced : Nat
  doublech3x3_1 : Nat
  doublech3x3_2 : Nat
deriving DecidableEq, Repr

/-- Transcribes `Inception3c.branch1`: 1x1 then strided 3x3 `ConvBNLayer`. -/
def inception3cBranch1 (ops : EcoOps) (p : Inception3cParams) (x : Tensor) : Tensor :=
  convBNForward ops (mkCBL p.ch3x3reduced p.ch3x3 3 2 1)
    (convBNForward ops (mkCBL p.num_channels p.ch3x3reduced 1 1 0) x)

/-- Transcribes `Inception3c.branch2`: 1x1 then 3x3 `ConvBNLayer`. -/
def inception3cBranch2 (ops : EcoOps) (p : Inception3cParams) (x : Tensor) : Tensor :=
  convBNForward ops (mkCBL p.doublech3x3reduced p.doublech3x3_1 3 1 1)
    (convBNForward ops (mkCBL p.num_channels p.doublech3x3reduced 1 1 0) x)

/-- Transcribes `Inception3c.branch3`: a single strided 3x3 `ConvBNLayer`. -/
def inception3cBranch3 (ops : EcoOps) (p : Inception3cParams) (x : Tensor) : Tensor :=
  convBNForward ops (mkCBL p.doublech3x3_1 p.doublech3x3_2 3 2 1) x

/-- Transcribes `Inception3c.branch4`: a strided 3x3 max pool. -/
def inception3cBranch4 (ops : EcoOps) (x : Tensor) : Tensor :=
  ops.maxPool2d ⟨3, 2, 1⟩ x

/-- Transcribes `Inception3c.forward`: note that `branch3` is applied to `branch2`'s
output, the concatenation takes branches 1, 3 and 4 only, and `branch2`'s
output is returned as a second component. -/
def inception3cForward (ops : EcoOps) (p : Inception3cParams) (x : Tensor) :
    Tensor × Tensor :=
  let branch1 := inception3cBranch1 ops p x
  let branch2 := inception3cBranch2 ops p x
  let branch3 := inception3cBranch3 ops p branch2
  let branch4 := inception3cBranch4 ops x
  (ops.concat1 [branch1, branch3, branch4], branch2)

/-- The constructor arguments of `Inception4e` (`pool_proj` is accepted
but unused by the layer). -/
structure Inception4eParams where
  num_channels : Nat
  ch3x3reduced : Nat
  ch3x3 : Nat
  doublech3x3reduced : Nat
  doublech3x3_1 : Nat
  doublech3x3_2 : Nat
  pool_proj : Nat
deriving DecidableEq, Repr

/-- Transcribes `Inception4e.branch1`: 1x1 then strided 3x3 `ConvBNLayer`. -/
def inception4eBranch1 (ops : EcoOps) (p : Inception4eParams) (x : Tensor) : Tensor :=
  convBNForward ops (mkCBL p.ch3x3reduced p.ch3x3 3 2 1)
    (convBNForward ops (mkCBL p.num_channels p.ch3x3reduced 1 1 0) x)

/-- Transcribes `Inception4e.branch2`: 1x1, 3x3, then strided 3x3 `ConvBNLayer`. -/
def inception4eBranch2 (ops : EcoOps) (p : Inception4eParams) (x : Tensor) : Tensor :=
  convBNForward ops (mkCBL p.doublech3x3_1 p.doublech3x3_2 3 2 1)
    (convBNForward ops (mkCBL p.doublech3x3reduced p.doublech3x3_1 3 1 1)
      (convBNForward ops (mkCBL p.num_channels p.doublech3x3reduced 1 1 0) x))

/-- Transcribes `Inception4e.branch3`: a strided 3x3 max pool. -/
def inception4eBranch3 (ops : EcoOps) (x : Tensor) : Tensor :=
  ops.maxPool2d ⟨3, 2, 1⟩ x

/-- Transcribes `Inception4e.forward`. -/
def inception4eForward (ops : EcoOps) (p : Inception4eParams) (x : Tensor) : Tensor :=
  ops.concat1 [inception4eBranch1 ops p x, inception4eBranch2 ops p x,
    inception4eBranch3 ops x]

/-- Transcribes `Inception5a.forward` (branches as in `Inception`: 1x1; 1x1 then 3x3;
1x1 then double 3x3; average pool then 1x1). -/
def inception5aForward (ops : EcoOps) (p : InceptionParams) (x : Tensor) : Tensor :=
  ops.concat1 [inceptionBranch1 ops p x, inceptionBranch2 ops p x,
    inceptionBranch3 ops p x,
    convBNForward ops (mkCBL p.num_channels p.pool_proj 1 1 0)
      (ops.avgPool2d ⟨3, 1, 1⟩ x)]

/-- Transcribes `Inception5b.branch4`: 3x3 max pool then 1x1 `ConvBNLayer`. -/
def inception5bBranch4 (ops : EcoOps) (p : InceptionParams) (x : Tensor) : Tensor :=
  convBNForward ops (mkCBL p.num_channels p.pool_proj 1 1 0)
    (ops.maxPool2d ⟨3, 1, 1⟩ x)

/-- Transcribes `Inception5b.forward` (as `Inception` but with a max pool in the
fourth branch). -/
def inception5bForward (ops : EcoOps) (p : InceptionParams) (x : Tensor) : Tensor :=
  ops.concat1 [inceptionBranch1 ops p x, inceptionBranch2 ops p x,
    inceptionBranch3 ops p x, inception5bBranch4 ops p x]

/-- The configuration `GoogLeNet.__init__` stores. -/
structure GoogLeNetCfg where
  class_dim : Nat
  seg_num : Nat
  seglen : Nat
  modality : String
deriving DecidableEq, Repr

/-- Transcribes `self.channels = 3 * seglen if modality == "RGB" else 2 * seglen`. -/
def GoogLeNetCfg.channels (g : GoogLeNetCfg) : Nat :=
  if g.modality = "RGB" then 3 * g.seglen else 2 * g.seglen

/-- Transcribes `self.googLeNet_part1`: stem convolutions and pools followed by the
`inception_3a` and `inception_3b` blocks, with the channel numbers of the
source. -/
def googLeNetPart1 (ops : EcoOps) (channels : Nat) (x : Tensor) : Tensor :=
  inceptionForward ops ⟨256, 64, 64, 96, 64, 96, 96, 64⟩
    (inceptionForward ops ⟨192, 64, 64, 64, 64, 96, 96, 32⟩
      (ops.maxPool2d ⟨3, 2, 1⟩
        (convBNForward ops (mkCBL 64 192 3 1 1)
          (convBNForward ops (mkCBL 64 64 1 1 0)
            (ops.maxPool2d ⟨3, 2, 1⟩
              (convBNForward ops (mkCBL channels 64 7 2 3) x))))))

/-- Transcribes `self.before3d = Inception3c(320, 128, 160, 64, 96, 96)`. -/
def before3dParams : Inception3cParams := ⟨320, 128, 160, 64, 96, 96⟩

/-- Transcribes `self.googLeNet_part2`: the `inception_4a` .. `inception_4d` blocks. -/
def googLeNetPart2 (ops : EcoOps) (x : Tensor) : Tensor :=
  inceptionForward ops ⟨608, 96, 128, 192, 160, 192, 192, 128⟩
    (inceptionForward ops ⟨576, 160, 128, 160, 128, 160, 160, 128⟩
      (inceptionForward ops ⟨576, 192, 96, 128, 96, 128, 128, 128⟩
        (inceptionForward ops ⟨576, 224, 64, 96, 96, 128, 128, 128⟩ x)))

/-- Transcribes `self.googLeNet_part3`: `inception_4e`, `inception_5a`, `inception_5b`
and the adaptive average pool. -/
def googLeNetPart3 (ops : EcoOps) (x : Tensor) : Tensor :=
  ops.adaptiveAvgPool1
    (inception5bForward ops ⟨1024, 352, 192, 320, 192, 224, 224, 128⟩
      (inception5aForward ops ⟨1056, 352, 192, 320, 160, 224, 224, 128⟩
        (inception4eForward ops ⟨608, 128, 192, 192, 256, 256, 608⟩ x)))

/-- The `while len(self.out_3d) < self.seg_num: self.out_3d.append(before3d)`
loop of `GoogLeNet.forward`. -/
def fillWhile (seg_num : Nat) (buf : List Tensor) (b : Tensor) : List Tensor :=
  if h : buf.length < seg_num then fillWhile seg_num (buf ++ [b]) b else buf
termination_by seg_num - buf.length
decreasing_by simp [List.length_append]; omega

/-- The `self.out_3d` buffer update of `GoogLeNet.forward`: a full buffer
has its first `seg_num - 1` slots overwritten by `out_3d[1:]` and its last
slot set to the current features; otherwise the while loop appends copies
of the current features until the buffer holds `seg_num` entries.  (The
`stop_gradient` flag set on entry `seg_num - 2` is a framework autodiff
attribute and does not change the stored values.) -/
def updateOut3d (seg_num : Nat) (buf : List Tensor) (b : Tensor) : List Tensor :=
  if buf.length = seg_num then
    (buf.drop 1 ++ buf.drop (seg_num - 1)).set (seg_num - 1) b
  else fillWhile seg_num buf b

/-- The axis-0 concatenation loop over the `out_3d` buffer. -/
def concatBuf (ops : EcoOps) (l : List Tensor) : Tensor :=
  l.tail.foldl ops.concat0 (l.headD default)

/-- Transcribes `GoogLeNet.forward`, transcribed statement by statement; the state is
the `self.out_3d` buffer, threaded explicitly.  The result is the updated
buffer together with either the softmax output (no label) or the pair of
softmax output and accuracy (label given). -/
def gForward (ops : EcoOps) (g : GoogLeNetCfg) (out_3d : List Tensor)
    (inputs : Tensor) (label : Option Tensor) :
    List Tensor × (Tensor ⊕ Tensor × Tensor) :=
  let inputs := ops.reshapeFlat4 inputs
  let p1 := googLeNetPart1 ops g.channels inputs
  let pr := inception3cForward ops before3dParams p1
  let googleNet_b3d := pr.1
  let before3d := pr.2
  let out_3d := updateOut3d g.seg_num out_3d before3d
  let y_out_3d := concatBuf ops out_3d
  let y_out_3d := ops.reshapeSeg5 g.seg_num y_out_3d
  let y_out_3d := ops.reshapeSwap y_out_3d
  let out_final_3d := ops.res3d y_out_3d
  let out_final_3d := ops.reshape2 out_final_3d
  let out_final_3d := ops.dropout (1/2) out_final_3d
  let out_final_3d := ops.reshapeSeg3 g.seg_num out_final_3d
  let out_final_3d := ops.mean1 out_final_3d
  let googLeNet_part2 := googLeNetPart2 ops googleNet_b3d
  let googLeNet_part3 := googLeNetPart3 ops googLeNet_part2
  let googLeNet_part3 := ops.dropout (3/5) googLeNet_part3
  let out_final_2d := ops.reshape2 googLeNet_part3
  let out_final_2d := ops.reshapeSeg3 g.seg_num out_final_2d
  let out_final_2d := ops.mean1 out_final_2d
  let out_final := ops.concat1 [out_final_2d, out_final_3d]
  let out_final := ops.linearOut g.class_dim out_final
  let out_final := ops.softmaxF out_final
  match label with
  | some l => (out_3d, Sum.inr (out_final, ops.accuracy out_final l))
  | none => (out_3d, Sum.inl out_final)

/-- Four branches applied in parallel to one input, outputs concatenated
along channel axis 1 — the shape the specification describes. -/
def parallel4 (ops : EcoOps) (b1 b2 b3 b4 : Tensor → Tensor) (x : Tensor) : Tensor :=
  ops.concat1 [b1 x, b2 x, b3 x, b4 x]

/-- Three branches applied in parallel to one input, outputs concatenated
along channel axis 1. -/
def parallel3 (ops : EcoOps) (b1 b2 b3 : Tensor → Tensor) (x : Tensor) : Tensor :=
  ops.concat1 [b1 x, b2 x, b3 x]

/-- Per-segment averaging: reshape to `[-1, seg_num, features]` then mean
along axis 1. -/
def segAvg (ops : EcoOps) (seg_num : Nat) (t : Tensor) : Tensor :=
  ops.mean1 (ops.reshapeSeg3 seg_num t)

/-- The per-segment-averaged 2D GoogLeNet features of `GoogLeNet.forward`. -/
def twoDFeatures (ops : EcoOps) (g : GoogLeNetCfg) (x : Tensor) : Tensor :=
  segAvg ops g.seg_num (ops.reshape2 (ops.dropout (3/5)
    (googLeNetPart3 ops (googLeNetPart2 ops
      (inception3cForward ops before3dParams
        (googLeNetPart1 ops g.channels (ops.reshapeFlat4 x))).1))))

/-- The per-segment-averaged 3D ResNet features of `GoogLeNet.forward`. -/
def threeDFeatures (ops : EcoOps) (g : GoogLeNetCfg) (st : List Tensor) (x : Tensor) : Tensor :=
  let before3d := (inception3cForward ops before3dParams
    (googLeNetPart1 ops g.channels (ops.reshapeFlat4 x))).2
  segAvg ops g.seg_num (ops.dropout (1/2) (ops.reshape2 (ops.res3d
    (ops.reshapeSwap (ops.reshapeSeg5 g.seg_num
      (concatBuf ops (updateOut3d g.seg_num st before3d)))))))

/-- The fusion the specification describes: concatenate the two streams
along axis 1, apply the final `Linear` layer, then softmax. -/
def fusedOutputSpec (ops : EcoOps) (g : GoogLeNetCfg) (feat2d feat3d : Tensor) : Tensor :=
  ops.softmaxF (ops.linearOut g.class_dim (ops.concat1 [feat2d, feat3d]))

/-- A concrete instantiation of the fluid primitives used to evaluate the
cell on explicit inputs (projections and constant functions). -/
def trivCellOps : CellOps :=
  ⟨fun t _ _ => t, fun t _ _ => t, id, id, id,
   fun a _ => a, fun a _ => a, fun a _ => a,
   fun t => (t, t, t, t), fun t => (t, t, t, t, t, t, t),
   fun a _ => a, fun _ => 1⟩

/-- A rank-4 tensor with a single entry. -/
def t4 : Tensor := ⟨[1, 1, 1, 1], [0]⟩

/-- A rank-5 tensor with a single entry. -/
def t5 : Tensor := ⟨[1, 1, 1, 1, 1], [0]⟩

/-- An empty tensor. -/
def tEmpty : Tensor := ⟨[], []⟩

/-- Scalar-like tensors used to distinguish buffer states. -/
def tOne : Tensor := ⟨[], [1]⟩

/-- A second scalar-like tensor. -/
def tTwo : Tensor := ⟨[], [2]⟩

/-- A 2-D cell configuration with layer normalization on. -/
def cfgW : CellConfig :=
  ⟨2, [0, 0, 0], 1, .int 1, true, 1, 0, 1, "eidetic_lstm_cell"⟩

/-- A 2-D cell configuration with layer normalization off. -/
def cfgLnF : CellConfig :=
  ⟨2, [0, 0, 0], 1, .int 1, false, 1, 0, 1, "eidetic_lstm_cell"⟩

/-- The 1-D cell configuration produced by
`EideticLSTMCell(1, (3, 3), 4, 1, layer_norm=False)`. -/
def cfg1 : CellConfig :=
  ⟨1, [3, 3], 4, .int 1, false, 1, 0, 1, "eidetic_lstm_cell"⟩

/-- A concrete instantiation of the paddle primitives used to evaluate the
ECO model on explicit inputs; `concat1` records how many tensors were
concatenated, `concat0` appends data. -/
def trivEcoOps : EcoOps :=
  ⟨fun _ t => t, fun _ t => t, fun _ t => t, fun _ t => t, id,
   fun ts => ⟨[ts.length], ts.flatMap Tensor.data⟩,
   fun a b => ⟨[], a.data ++ b.data⟩,
   id, fun _ t => t, id, id, fun _ t => t, id, fun _ t => t, id,
   fun _ t => t, id, fun _ _ => tEmpty⟩

/-- A two-segment GoogLeNet configuration. -/
def gCfg2 : GoogLeNetCfg := ⟨10, 2, 1, "RGB"⟩

theorem exceptBind_ok {ε α β : Type} {x : Except ε α} {f : α → Except ε β} {b : β}
    (h : x.bind f = Except.ok b) : ∃ a, x = Except.ok a ∧ f a = Except.ok b := by
  cases x with
  | error e => simp [Except.bind] at h
  | ok a =>
    refine ⟨a, rfl, ?_⟩
    simpa [Except.bind] using h

theorem attn_error_of_keys (expf : ℚ → ℚ) (q k v : Tensor)
    (hk : k.shape.length ≠ 5) :
    attn expf q k v = Except.error CellErr.valueError := by
  unfold attn
  by_cases h4 : q.shape.length = 4 <;> by_cases h5 : q.shape.length = 5 <;>
    simp [h4, h5, hk]

theorem bind_ok_eq {e a b : Type} (x : a) (f : a → Except e b) :
    (Except.ok x >>= f) = f x := rfl

theorem bind_error_eq {e a b : Type} (er : e) (f : a → Except e b) :
    ((Except.error er : Except e a) >>= f) = Except.error er := rfl

theorem throw_eq {e a : Type} (er : e) : (throw er : Except e a) = Except.error er := rfl

/-- Claim C1: on any successful call with `conv_ndims` in `{2, 3}` and
`layer_norm = true`, the returned new cell state is the layer
normalization of (the incoming cell state plus the 3D self-attention with
the recall gate as query and the `eidetic_cell` memory bank as keys and
values) plus `i_t * g_t`, the gates coming from same-padded convolutions
of the hidden state and the input followed by layer normalization, as
written out in `specNewCell`. -/
theorem call_new_cell_refines_spec (ops : CellOps) (c : CellConfig)
    (inputs hidden cell gm ec : Tensor) (out nc ngm : Tensor)
    (h2 : c.conv_ndims = 2 ∨ c.conv_ndims = 3) (hln : c.layer_norm = true)
    (hok : cellCall ops c inputs hidden cell gm ec = Except.ok (out, nc, ngm)) :
    specNewCell ops c inputs hidden cell ec = Except.ok nc := by
  rcases h2 with h2 | h2 <;>
  · simp [cellCall, cellConv, h2, hln, requireT, bind_ok_eq, bind_error_eq, throw_eq] at hok
    rcases exceptBind_ok hok with ⟨a, ha, hrest⟩
    simp [bind_ok_eq, bind_error_eq] at hrest
    simp [specNewCell, specGateConv, h2, ha, Except.map]
    exact hrest.2.1

/-- Witness for claim C1 at a concrete successful call. -/
theorem call_new_cell_refines_spec_witness :
    specNewCell trivCellOps cfgW t4 t4 t4 t5 = Except.ok t4 :=
  call_new_cell_refines_spec trivCellOps cfgW t4 t4 t4 t4 t5 t4 t4 t4
    (Or.inl rfl) rfl rfl

/-- Claim C3 counterexample: invoking the cell can raise `ValueError` from
a shape check: a concrete `__call__` on a validly constructed 2-D cell
with a rank-4 `eidetic_cell` fails `_attn`'s check that the keys are
rank 5. -/
theorem call_raises_valueError_cex :
    cellCall trivCellOps cfgW t4 t4 t4 t4 t4 = Except.error CellErr.valueError := rfl

/-- Claim C3 (amended): besides the construction-time check, `_attn`
performs shape-compatibility checks that raise `ValueError`, and they are
reachable from `__call__`: whenever the `eidetic_cell` memory bank is not
rank 5, a call on a cell with `layer_norm = true` and `conv_ndims` in
`{2, 3}` raises `ValueError`. -/
theorem call_valueError_from_attn (ops : CellOps) (c : CellConfig)
    (inputs hidden cell gm ec : Tensor)
    (hln : c.layer_norm = true) (h2 : c.conv_ndims = 2 ∨ c.conv_ndims = 3)
    (hk : ec.shape.length ≠ 5) :
    cellCall ops c inputs hidden cell gm ec = Except.error CellErr.valueError := by
  have ha : ∀ (e : ℚ → ℚ) (q v : Tensor),
      attn e q ec v = Except.error CellErr.valueError :=
    fun e q v => attn_error_of_keys e q ec v hk
  rcases h2 with h2 | h2 <;>
    simp [cellCall, cellConv, h2, hln, requireT, ha, bind_ok_eq, bind_error_eq, throw_eq]

/-- Witness for amended claim C3 at a concrete input. -/
theorem call_valueError_from_attn_witness :
    cellCall trivCellOps cfgW t4 t4 t4 t4 tEmpty = Except.error CellErr.valueError :=
  call_valueError_from_attn trivCellOps cfgW t4 t4 t4 t4 tEmpty rfl
    (Or.inl rfl) (by decide)

/-- Claim C8 counterexample: a cell constructed with `layer_norm = False`
and `conv_ndims = 1` does not fail on an unbound gate variable — it fails
earlier, on the `None` returned by the first convolution. -/
theorem call_without_layer_norm_not_unbound_cex :
    cellInit 1 [3, 3] 4 (KernelArg.int 1) false 1 0 1 "eidetic_lstm_cell" =
      Except.ok cfg1 ∧
    cellCall trivCellOps cfg1 t4 t4 t4 t4 t5 = Except.error CellErr.noneType ∧
    CellErr.noneType ≠ CellErr.unboundLocal := by
  refine ⟨rfl, rfl, by decide⟩

/-- Claim C8 (amended): the gate splits are executed only inside the
`layer_norm` branches, so a cell with `layer_norm = false` never returns a
result: with `conv_ndims` in `{2, 3}` the call fails on an unbound gate
variable, and with any other `conv_ndims` it fails on the `None`
convolution result. -/
theorem call_unbound_without_layer_norm (ops : CellOps) (c : CellConfig)
    (inputs hidden cell gm ec : Tensor) (hln : c.layer_norm = false) :
    (c.conv_ndims = 2 ∨ c.conv_ndims = 3 →
      cellCall ops c inputs hidden cell gm ec = Except.error CellErr.unboundLocal) ∧
    ∀ r, cellCall ops c inputs hidden cell gm ec ≠ Except.ok r := by
  constructor
  · rintro (h2 | h2) <;>
      simp [cellCall, cellConv, h2, hln, requireT, bind_ok_eq, bind_error_eq, throw_eq]
  · intro r h
    by_cases h2 : c.conv_ndims = 2
    · simp [cellCall, cellConv, h2, hln, requireT, bind_ok_eq, bind_error_eq, throw_eq] at h
    by_cases h3 : c.conv_ndims = 3
    · simp [cellCall, cellConv, h3, hln, requireT, bind_ok_eq, bind_error_eq, throw_eq] at h
    · simp [cellCall, cellConv, h2, h3, hln, requireT, bind_ok_eq, bind_error_eq, throw_eq] at h

/-- Witness for amended claim C8 at a concrete cell. -/
theorem call_unbound_without_layer_norm_witness :
    (cfgLnF.conv_ndims = 2 ∨ cfgLnF.conv_ndims = 3 →
      cellCall trivCellOps cfgLnF t4 t4 t4 t4 t5 = Except.error CellErr.unboundLocal) ∧
    ∀ r, cellCall trivCellOps cfgLnF t4 t4 t4 t4 t5 ≠ Except.ok r :=
  call_unbound_without_layer_norm trivCellOps cfgLnF t4 t4 t4 t4 t5 rfl

/-- Claim C9: `_conv` returns no tensor for any `conv_ndims` other than 2
and 3, and a cell constructed with `conv_ndims = 1` fails at the first
convolution's `None` result on every call. -/
theorem cellConv_none_and_call_noneType (ops : CellOps) (c : CellConfig)
    (x : Tensor) (oc : ℤ) (ks : KernelArg) (inputs hidden cell gm ec : Tensor) :
    (c.conv_ndims ≠ 2 → c.conv_ndims ≠ 3 → cellConv ops c x oc ks = none) ∧
    (c.conv_ndims = 1 →
      cellCall ops c inputs hidden cell gm ec = Except.error CellErr.noneType) := by
  constructor
  · intro h2 h3; simp [cellConv, h2, h3]
  · intro h1
    cases hb : c.layer_norm <;>
      simp [cellCall, cellConv, h1, hb, requireT, bind_ok_eq, bind_error_eq, throw_eq]

/-- Witness for claim C9 at a concrete 1-D cell. -/
theorem cellConv_none_and_call_noneType_witness :
    cellConv trivCellOps cfg1 t4 1 (KernelArg.int 1) = none ∧
    cellCall trivCellOps cfg1 t4 t4 t4 t4 t5 = Except.error CellErr.noneType := by
  have h := cellConv_none_and_call_noneType trivCellOps cfg1 t4 1
    (KernelArg.int 1) t4 t4 t4 t4 t5
  exact ⟨h.1 (by decide) (by decide), h.2 rfl⟩

/-- Claim C2: `EideticLSTMCell` construction raises `ValueError` exactly
when `conv_ndims` differs from `len(input_shape) - 1`; in every other case
it succeeds and merely stores the configuration. -/
theorem cellInit_characterization (conv_ndims : ℤ) (input_shape : List ℤ)
    (output_channels : ℤ) (kernel_shape : KernelArg) (layer_norm : Bool)
    (norm_gain norm_shift forget_bias : ℚ) (name : String) :
    cellInit conv_ndims input_shape output_channels kernel_shape layer_norm
        norm_gain norm_shift forget_bias name =
      if conv_ndims = (input_shape.length : ℤ) - 1 then
        Except.ok ⟨conv_ndims, input_shape, output_channels, kernel_shape,
          layer_norm, norm_gain, norm_shift, forget_bias, name⟩
      else Except.error CellErr.valueError := by
  by_cases h : conv_ndims = (input_shape.length : ℤ) - 1 <;> simp [cellInit, h]

/-- Claim C5: `Inception.forward` applies its four branches (1x1 conv; 1x1
then 3x3 conv; 1x1 then double 3x3 conv; average pool then 1x1 conv) to
the same unmodified input and concatenates the four outputs along channel
axis 1. -/
theorem inception_forward_parallel (ops : EcoOps) (p : InceptionParams) (x : Tensor) :
    inceptionForward ops p x =
      parallel4 ops
        (fun y => convBNForward ops (mkCBL p.num_channels p.ch1x1 1 1 0) y)
        (fun y => convBNForward ops (mkCBL p.ch3x3reduced p.ch3x3 3 1 1)
          (convBNForward ops (mkCBL p.num_channels p.ch3x3reduced 1 1 0) y))
        (fun y => convBNForward ops (mkCBL p.doublech3x3_1 p.doublech3x3_2 3 1 1)
          (convBNForward ops (mkCBL p.doublech3x3reduced p.doublech3x3_1 3 1 1)
            (convBNForward ops (mkCBL p.num_channels p.doublech3x3reduced 1 1 0) y)))
        (fun y => convBNForward ops (mkCBL p.num_channels p.pool_proj 1 1 0)
          (ops.avgPool2d ⟨3, 1, 1⟩ y))
        x := rfl

/-- Claim C6 counterexample: `Inception3c.forward` does not concatenate
the outputs of all four of its branches applied to the block's input: at a
concrete instantiation its first result component differs from that
concatenation (three tensors are concatenated, not four, and `branch3` is
not given the block's input). -/
theorem inception3c_not_all_parallel_cex :
    (inception3cForward trivEcoOps before3dParams tEmpty).1 ≠
      trivEcoOps.concat1
        [inception3cBranch1 trivEcoOps before3dParams tEmpty,
         inception3cBranch2 trivEcoOps before3dParams tEmpty,
         inception3cBranch3 trivEcoOps before3dParams tEmpty,
         inception3cBranch4 trivEcoOps tEmpty] := by decide

/-- Claim C6 (amended): `Inception`, `Inception4e`, `Inception5a` and
`Inception5b` apply each of their branches in parallel to the block's
input and concatenate all branch outputs along channel axis 1;
`Inception3c` instead applies `branch3` to `branch2`'s output,
concatenates only branches 1, 3 and 4, and returns `branch2`'s output as
a separate second component. -/
theorem inception_blocks_branch_wiring (ops : EcoOps) (p : InceptionParams)
    (p3 : Inception3cParams) (p4 : Inception4eParams) (x : Tensor) :
    inceptionForward ops p x =
      parallel4 ops (inceptionBranch1 ops p) (inceptionBranch2 ops p)
        (inceptionBranch3 ops p) (inceptionBranch4 ops p) x ∧
    inception4eForward ops p4 x =
      parallel3 ops (inception4eBranch1 ops p4) (inception4eBranch2 ops p4)
        (inception4eBranch3 ops) x ∧
    inception5aForward ops p x =
      parallel4 ops (inceptionBranch1 ops p) (inceptionBranch2 ops p)
        (inceptionBranch3 ops p) (inceptionBranch4 ops p) x ∧
    inception5bForward ops p x =
      parallel4 ops (inceptionBranch1 ops p) (inceptionBranch2 ops p)
        (inceptionBranch3 ops p) (inception5bBranch4 ops p) x ∧
    inception3cForward ops p3 x =
      (ops.concat1 [inception3cBranch1 ops p3 x,
        inception3cBranch3 ops p3 (inception3cBranch2 ops p3 x),
        inception3cBranch4 ops x],
       inception3cBranch2 ops p3 x) :=
  ⟨rfl, rfl, rfl, rfl, rfl⟩

/-- Claim C7: when no label is given, `GoogLeNet.forward` returns the
softmax of the final `Linear` layer applied to the axis-1 concatenation of
the per-segment-averaged 2D GoogLeNet features and the per-segment-averaged
3D ResNet features. -/
theorem gForward_fused_output (ops : EcoOps) (g : GoogLeNetCfg)
    (st : List Tensor) (x : Tensor) :
    (gForward ops g st x none).2 =
      Sum.inl (fusedOutputSpec ops g (twoDFeatures ops g x)
        (threeDFeatures ops g st x)) := rfl

/-- Claim C4: on every triple of tensors with positive query dimensions
that passes `_attn`'s shape checks, the result's data is the
flatten / softmax-along-the-key-axis / multiply pipeline of `attnSpec`,
and its shape is exactly the query's original shape. -/
theorem attn_ok_shape_and_data (expf : ℚ → ℚ) (q k v a : Tensor)
    (hpos : ∀ d ∈ q.shape, 0 < d)
    (hok : attn expf q k v = Except.ok a) :
    a.shape = q.shape ∧
    a.data = (attnSpec expf q k v (qBatch q) (qChannels q)).data := by
  rcases hq : q.shape with _ | ⟨d0, _ | ⟨d1, _ | ⟨d2, _ | ⟨d3, _ | ⟨d4, _ | ⟨d5, rest⟩⟩⟩⟩⟩⟩
  · simp [attn, hq] at hok
  · simp [attn, hq] at hok
  · simp [attn, hq] at hok
  · simp [attn, hq] at hok
  · simp [attn, hq] at hok
    split_ifs at hok <;> simp only [Except.ok.injEq] at hok
    subst hok
    constructor
    · simp
    · simp [attnSpec, qBatch, qChannels, hq]
  · simp [attn, hq] at hok
    split_ifs at hok <;> simp only [Except.ok.injEq] at hok
    have hnum : q.numel = d1 * (d0 * d2 * d3 * d4) := by
      rw [Tensor.numel, hq]
      simp [List.prod_cons]
      ring
    have hposd : 0 < d0 * d2 * d3 * d4 := by
      have h0 := hpos d0 (by simp [hq])
      have h2 := hpos d2 (by simp [hq])
      have h3 := hpos d3 (by simp [hq])
      have h4 := hpos d4 (by simp [hq])
      exact Nat.mul_pos (Nat.mul_pos (Nat.mul_pos h0 h2) h3) h4
    have hdiv : d1 * (d0 * d2 * d3 * d4) / (d0 * d2 * d3 * d4) = d1 :=
      Nat.mul_div_cancel d1 hposd
    subst hok
    constructor
    · simp [hnum, hdiv]
    · simp [attnSpec, qBatch, qChannels, hq]
  · simp [attn, hq] at hok

/-- Witness for claim C4 at a concrete attention call. -/
theorem attn_ok_shape_and_data_witness :
    t4.shape = t4.shape ∧
    t4.data = (attnSpec (fun _ => 1) t4 t5 t5 (qBatch t4) (qChannels t4)).data :=
  attn_ok_shape_and_data (fun _ => 1) t4 t5 t5 t4 (by decide)
    (by norm_num [attn, t4, t5, reshapeBC, matmulNT, matmulNN, softmaxAxis2,
      Tensor.get3, Tensor.dim, Tensor.numel, List.range_succ])

theorem set_append_length {α : Type} (l1 l2 : List α) (x : α) :
    (l1 ++ l2).set l1.length x = l1 ++ l2.set 0 x := by
  induction l1 with
  | nil => simp
  | cons a t ih => simp [List.set, ih]

theorem fillWhile_eq (b : Tensor) :
    ∀ (n : Nat) (seg : Nat) (buf : List Tensor), seg - buf.length = n →
      fillWhile seg buf b = buf ++ List.replicate (seg - buf.length) b := by
  intro n
  induction n with
  | zero =>
    intro seg buf h
    rw [fillWhile]
    have hlt : ¬ buf.length < seg := by omega
    simp [hlt, h]
  | succ n ih =>
    intro seg buf h
    rw [fillWhile]
    have hlt : buf.length < seg := by omega
    rw [dif_pos hlt, ih seg (buf ++ [b]) (by simp; omega)]
    have hr : seg - buf.length = (seg - (buf.length + 1)) + 1 := by omega
    simp only [List.length_append, List.length_cons, List.length_nil]
    rw [hr, List.replicate_succ, List.append_assoc]
    rfl

theorem updateOut3d_fill (seg : Nat) (buf : List Tensor) (b : Tensor)
    (h : buf.length < seg) :
    updateOut3d seg buf b = buf ++ List.replicate (seg - buf.length) b := by
  rw [updateOut3d, if_neg (by omega)]
  exact fillWhile_eq b (seg - buf.length) seg buf rfl

theorem updateOut3d_shift (seg : Nat) (buf : List Tensor) (b : Tensor)
    (hseg : 1 ≤ seg) (h : buf.length = seg) :
    updateOut3d seg buf b = buf.tail ++ [b] := by
  rw [updateOut3d, if_pos h]
  have hlen : (buf.drop (seg - 1)).length = 1 := by
    rw [List.length_drop, h]; omega
  obtain ⟨e, he⟩ := List.length_eq_one.mp hlen
  have htl : (buf.drop 1).length = seg - 1 := by
    rw [List.length_drop, h]
  rw [he, ← htl, set_append_length, List.drop_one]
  rfl

theorem updateOut3d_length (seg : Nat) (buf : List Tensor) (b : Tensor)
    (h : buf.length ≤ seg) :
    (updateOut3d seg buf b).length = seg := by
  rcases Nat.lt_or_ge buf.length seg with hlt | hge
  · rw [updateOut3d_fill seg buf b hlt]
    simp
    omega
  · have heq : buf.length = seg := le_antisymm h hge
    rw [updateOut3d, if_pos heq]
    simp [List.length_set, List.length_drop, heq]

/-- Claim C10: `GoogLeNet.forward` is stateful through the `out_3d`
buffer: for `seg_num` at least 1, any buffer of length at most `seg_num`
has length exactly `seg_num` after a call; a short buffer is filled with
copies of the current segment features, a full buffer is shifted left by
one and the current features appended; and the output on a fixed input can
depend on the buffer left by earlier calls. -/
theorem out3d_buffer_invariant (ops : EcoOps) (g : GoogLeNetCfg)
    (st : List Tensor) (x : Tensor) (label : Option Tensor) (b : Tensor)
    (hseg : 1 ≤ g.seg_num) (hst : st.length ≤ g.seg_num) :
    ((gForward ops g st x label).1.length = g.seg_num) ∧
    (st.length < g.seg_num →
      updateOut3d g.seg_num st b = st ++ List.replicate (g.seg_num - st.length) b) ∧
    (st.length = g.seg_num → updateOut3d g.seg_num st b = st.tail ++ [b]) ∧
    ∃ (ops2 : EcoOps) (g2 : GoogLeNetCfg) (st1 st2 : List Tensor) (y : Tensor),
      st1.length = g2.seg_num ∧ st2.length = g2.seg_num ∧
      (gForward ops2 g2 st1 y none).2 ≠ (gForward ops2 g2 st2 y none).2 := by
  refine ⟨?_, fun h => updateOut3d_fill g.seg_num st b h,
    fun h => updateOut3d_shift g.seg_num st b hseg h,
    trivEcoOps, gCfg2, [tEmpty, tOne], [tEmpty, tTwo], tEmpty, rfl, rfl, by decide⟩
  have h1 : (gForward ops g st x label).1 = updateOut3d g.seg_num st
      ((inception3cForward ops before3dParams
        (googLeNetPart1 ops g.channels (ops.reshapeFlat4 x))).2) := by
    cases label <;> rfl
  rw [h1]
  exact updateOut3d_length _ _ _ hst

/-- Witness for claim C10 starting from the empty buffer. -/
theorem out3d_buffer_invariant_witness :
    ((gForward trivEcoOps gCfg2 [] tEmpty none).1.length = gCfg2.seg_num) ∧
    (List.length ([] : List Tensor) < gCfg2.seg_num →
      updateOut3d gCfg2.seg_num [] tEmpty =
        [] ++ List.replicate (gCfg2.seg_num - List.length ([] : List Tensor)) tEmpty) ∧
    (List.length ([] : List Tensor) = gCfg2.seg_num →
      updateOut3d gCfg2.seg_num [] tEmpty = List.tail [] ++ [tEmpty]) ∧
    ∃ (ops2 : EcoOps) (g2 : GoogLeNetCfg) (st1 st2 : List Tensor) (y : Tensor),
      st1.length = g2.seg_num ∧ st2.length = g2.seg_num ∧
      (gForward ops2 g2 st1 y none).2 ≠ (gForward ops2 g2 st2 y none).2 :=
  out3d_buffer_invariant trivEcoOps gCfg2 [] tEmpty none tEmpty (by decide) (by decide)

end Contrib
